import Mathlib

/-!
Verification of the autoenergy decision controller and update orchestrator.

Times are modelled as integer seconds (`Int`), energy/power/price quantities as
rationals (`ℚ`, the exact-arithmetic reading of the Go `float64` fields).
The server handlers in `pkg/server` are embedded as pure functions from an
environment describing the results of every external call to an HTTP response
plus the ordered trace of external calls issued.
-/

namespace AutoEnergy

/-- The seconds in one hour, used for `time.Hour` arithmetic. -/
def hourSecs : Int := 3600

/-- The seconds in one day. -/
def daySecs : Int := 86400

/-- BatteryMode enumeration from `pkg/types`
(`NoChange, Standby, ChargeAny, ChargeSolar, Load`). -/
inductive BatteryMode
  | noChange
  | standby
  | chargeAny
  | chargeSolar
  | load
deriving DecidableEq, Repr

/-- SolarMode enumeration from `pkg/types` (`NoChange, NoExport, Any`). -/
inductive SolarMode
  | noChange
  | noExport
  | any
deriving DecidableEq, Repr

/-- Price from the utility provider: an interval and a dollars-per-kWh value. -/
structure Price where
  TSStart : Int := 0
  TSEnd : Int := 0
  DollarsPerKWH : ℚ := 0
deriving DecidableEq, Repr

/-- Per-hour energy flow totals, from `pkg/types`. -/
structure EnergyStats where
  TSHourStart : Int := 0
  HomeKWH : ℚ := 0
  SolarKWH : ℚ := 0
  GridImportKWH : ℚ := 0
  GridExportKWH : ℚ := 0
  BatteryUsedKWH : ℚ := 0
  BatteryChargedKWH : ℚ := 0
  SolarToHomeKWH : ℚ := 0
  BatteryToHomeKWH : ℚ := 0
  SolarToBatteryKWH : ℚ := 0
deriving DecidableEq, Repr

/-- Instantaneous ESS snapshot, from `pkg/types`.
`BatteryKW` is signed: positive means discharging, negative means charging. -/
structure SystemStatus where
  BatterySOC : ℚ := 0
  BatteryCapacityKWH : ℚ := 0
  MaxBatteryChargeKW : ℚ := 0
  BatteryKW : ℚ := 0
  SolarKW : ℚ := 0
  HomeKW : ℚ := 0
  GridKW : ℚ := 0
  EmergencyMode : Bool := false
  CanImportBattery : Bool := false
  CanExportBattery : Bool := false
  CanExportSolar : Bool := false
deriving DecidableEq, Repr

/-- User policy knobs, from `pkg/types/settings.go` (the repository version used
by `handleUpdateSettings` additionally has `IgnoreHourUsageOverMultiple`). -/
structure Settings where
  DryRun : Bool := false
  Pause : Bool := false
  AlwaysChargeUnderDollarsPerKWH : ℚ := 0
  AdditionalFeesDollarsPerKWH : ℚ := 0
  MinArbitrageDifferenceDollarsPerKWH : ℚ := 0
  MinBatterySOC : ℚ := 0
  GridChargeBatteries : Bool := false
  GridExportSolar : Bool := false
  IgnoreHourUsageOverMultiple : ℚ := 0
deriving DecidableEq, Repr

/-- A recorded decision, from `pkg/types`. -/
structure Action where
  Timestamp : Int := 0
  BatteryMode : BatteryMode := .noChange
  SolarMode : SolarMode := .noChange
  Description : String := ""
  CurrentPrice : ℚ := 0
  DryRun : Bool := false
deriving DecidableEq, Repr

/-- String containment: `sub` occurs contiguously inside `s`. -/
def containsStr (s sub : String) : Prop := ∃ pre post, s = pre ++ sub ++ post

namespace controller

/-- Insert a rational into a sorted list, keeping it sorted (ascending). -/
def insertSorted (x : ℚ) : List ℚ → List ℚ
  | [] => [x]
  | y :: ys => if x ≤ y then x :: y :: ys else y :: insertSorted x ys

/-- Insertion sort for rationals, used to take the median of load samples. -/
def sortQ (l : List ℚ) : List ℚ := l.foldr insertSorted []

/-- Median of a list of rationals (0 when empty; mean of the two central
elements of the sorted list otherwise). -/
def median (l : List ℚ) : ℚ :=
  let s := sortQ l
  let n := l.length
  if n = 0 then 0 else (s.getD ((n - 1) / 2) 0 + s.getD (n / 2) 0) / 2

/-- Mean of a list of rationals, 0 when empty. -/
def meanQ (l : List ℚ) : ℚ :=
  if l.length = 0 then 0 else l.sum / (l.length : ℚ)

/-- Modelled from the spec: the effective current price is
`currentPrice.DollarsPerKWH + AdditionalFeesDollarsPerKWH` (section 4.1.1,
item 1). The controller source `pkg/controller` is not under `src/`. -/
def effectivePrice (currentPrice : Price) (settings : Settings) : ℚ :=
  currentPrice.DollarsPerKWH + settings.AdditionalFeesDollarsPerKWH

/-- Modelled from the spec: future prices restricted to the next 24 hours
(section 4.1.1, items 2 and 3). -/
def futuresInWindow (now : Int) (futurePrices : List Price) : List Price :=
  futurePrices.filter (fun p => decide (now ≤ p.TSStart) && decide (p.TSStart < now + 24 * hourSecs))

/-- Modelled from the spec: the cheapest future price in the next 24 hours
(first occurrence on ties), or none (section 4.1.1, item 2). -/
def cheapestFuture (now : Int) (futurePrices : List Price) : Option Price :=
  (futuresInWindow now futurePrices).foldl
    (fun acc p =>
      match acc with
      | none => some p
      | some q => if p.DollarsPerKWH < q.DollarsPerKWH then some p else some q)
    none

/-- Modelled from the spec: the most expensive future price in the next 24
hours (first occurrence on ties), or none (section 4.1.1, item 3). -/
def mostExpensiveFuture (now : Int) (futurePrices : List Price) : Option Price :=
  (futuresInWindow now futurePrices).foldl
    (fun acc p =>
      match acc with
      | none => some p
      | some q => if q.DollarsPerKWH < p.DollarsPerKWH then some p else some q)
    none

/-- Modelled from the spec: the per-hour load multiplier cap; the setting is
used when it is at least 1 (the validated range), otherwise a default
multiplier stands in (section 4.1.1, item 4 calls it a default). -/
def usageMultiplier (settings : Settings) : ℚ :=
  if 1 ≤ settings.IgnoreHourUsageOverMultiple then settings.IgnoreHourUsageOverMultiple else 4

/-- Modelled from the spec: history entries for the last 72 hours. -/
def historyWindow (now : Int) (history : List EnergyStats) : List EnergyStats :=
  history.filter (fun h => decide (now - 72 * hourSecs ≤ h.TSHourStart) && decide (h.TSHourStart ≤ now))

/-- Modelled from the spec: projected hourly load. Take `HomeKWH` over the last
72 hours of history, discard zeros, clip each value to at most
`median × IgnoreHourUsageOverMultiple`, and take the mean (section 4.1.1,
item 4). -/
def avgLoadKWH (now : Int) (history : List EnergyStats) (settings : Settings) : ℚ :=
  let samples := ((historyWindow now history).map (fun h => h.HomeKWH)).filter (fun q => decide (q ≠ 0))
  let cap := median samples * usageMultiplier settings
  meanQ (samples.map (fun q => min q cap))

/-- Modelled from the spec: average hourly solar generation over hours 24 to 48
ago (section 4.1.1, item 5). -/
def avgSolarYesterday (now : Int) (history : List EnergyStats) : ℚ :=
  meanQ ((history.filter (fun h =>
    decide (now - 48 * hourSecs ≤ h.TSHourStart) && decide (h.TSHourStart < now - 24 * hourSecs))).map
      (fun h => h.SolarKWH))

/-- Modelled from the spec: average hourly solar generation over the last 24
hours (section 4.1.1, item 5). -/
def avgSolarToday (now : Int) (history : List EnergyStats) : ℚ :=
  meanQ ((history.filter (fun h =>
    decide (now - 24 * hourSecs ≤ h.TSHourStart) && decide (h.TSHourStart ≤ now))).map
      (fun h => h.SolarKWH))

/-- Modelled from the spec: solar trend ratio
`avgSolarToday / max(avgSolarYesterday, eps)` clipped to `[0.25, 4.0]`
(section 4.1.1, item 5; eps is an unspecified small constant). -/
def solarTrendRatio (now : Int) (history : List EnergyStats) : ℚ :=
  let raw := avgSolarToday now history / max (avgSolarYesterday now history) (1 / 1000)
  min (max raw (1 / 4)) 4

/-- Modelled from the spec: usable battery energy
`(BatterySOC − MinBatterySOC) / 100 × BatteryCapacityKWH` clamped at 0
(section 4.1.1, item 6). -/
def usableEnergyKWH (status : SystemStatus) (settings : Settings) : ℚ :=
  max 0 ((status.BatterySOC - settings.MinBatterySOC) / 100 * status.BatteryCapacityKWH)

/-- Modelled from the spec: integer hours from now to the start of the cheapest
future price, or a large sentinel when there is none (section 4.1.1, item 7). -/
def hoursUntilCheapest (now : Int) (futurePrices : List Price) : Int :=
  match cheapestFuture now futurePrices with
  | none => 1000
  | some p => (p.TSStart - now).fdiv hourSecs

/-- Modelled from the spec: the local hour of day of a timestamp. -/
def hourOfDay (t : Int) : Int := (t.emod daySecs).fdiv hourSecs

/-- Modelled from the spec: expected solar generation `h` hours from now —
`avgSolarYesterday × trend` during daylight hours (06:00 to 19:00 local), else
0 (section 4.1.1, item 8). -/
def expectedSolarAt (now : Int) (history : List EnergyStats) (h : Nat) : ℚ :=
  let hod := hourOfDay (now + (h : Int) * hourSecs)
  if 6 ≤ hod ∧ hod < 19 then avgSolarYesterday now history * solarTrendRatio now history else 0

/-- Modelled from the spec: the horizon of the deficit projection — hours until
the cheapest future price, capped at 12 (section 4.1.1, item 8). -/
def projectionHorizon (now : Int) (futurePrices : List Price) : Nat :=
  (min 12 (max 0 (hoursUntilCheapest now futurePrices))).toNat

/-- Modelled from the spec: the per-hour net draws
`max(0, avgLoadKWH − expectedSolar)` over the projection horizon. -/
def projectedDraws (now : Int) (futurePrices : List Price) (history : List EnergyStats)
    (settings : Settings) : List ℚ :=
  (List.range (projectionHorizon now futurePrices)).map
    (fun h => max 0 (avgLoadKWH now history settings - expectedSolarAt now history (h + 1)))

/-- Modelled from the spec: simulate the hours, subtracting each draw from the
usable energy; a deficit is predicted when it would drop below 0 at any step
(section 4.1.1, item 8). -/
def simulateDeficit (usable : ℚ) (draws : List ℚ) : Bool :=
  (draws.foldl (fun st draw => (st.1 - draw, st.2 || decide (st.1 - draw < 0))) (usable, false)).2

/-- Modelled from the spec: whether a deficit is projected. -/
def deficitProjected (now : Int) (status : SystemStatus) (futurePrices : List Price)
    (history : List EnergyStats) (settings : Settings) : Bool :=
  simulateDeficit (usableEnergyKWH status settings) (projectedDraws now futurePrices history settings)

/-- Modelled from the spec: the projected need over the horizon, compared with
the usable energy in decision rule 7. -/
def projectedNeedKWH (now : Int) (futurePrices : List Price) (history : List EnergyStats)
    (settings : Settings) : ℚ :=
  (projectedDraws now futurePrices history settings).sum

/-- Modelled from the spec: the earliest future hour cheaper than the effective
current price (used by the arbitrage rule, section 4.1.2, rule 3). -/
def nextCheaperThanCurrent (now : Int) (futurePrices : List Price) (eff : ℚ) : Option Price :=
  ((futuresInWindow now futurePrices).filter (fun p => decide (p.DollarsPerKWH < eff))).foldl
    (fun acc p =>
      match acc with
      | none => some p
      | some q => if p.TSStart < q.TSStart then some p else some q)
    none

/-- Modelled from the spec: the arbitrage-charge guard of decision rule 3 —
grid charging allowed, the future spike clears the minimum margin, the spike
comes before the next cheaper-than-current hour, and there is room to charge. -/
def arbitrageGuard (now : Int) (status : SystemStatus) (currentPrice : Price)
    (futurePrices : List Price) (settings : Settings) : Bool :=
  settings.GridChargeBatteries &&
  (match mostExpensiveFuture now futurePrices with
    | none => false
    | some m =>
      decide (settings.MinArbitrageDifferenceDollarsPerKWH ≤
        (m.DollarsPerKWH - effectivePrice currentPrice settings)) &&
      (match nextCheaperThanCurrent now futurePrices (effectivePrice currentPrice settings) with
        | none => true
        | some c => decide (m.TSStart < c.TSStart))) &&
  decide (usableEnergyKWH status settings <
    status.BatteryCapacityKWH * (1 - settings.MinBatterySOC / 100))

/-- Modelled from the spec: the guard of decision rule 4 — the effective
current price is at most the cheapest future price (vacuously true when no
future price is known). -/
def currentAffordableGuard (now : Int) (currentPrice : Price) (futurePrices : List Price)
    (settings : Settings) : Bool :=
  match cheapestFuture now futurePrices with
  | none => true
  | some c => decide (effectivePrice currentPrice settings ≤ c.DollarsPerKWH)

/-- Modelled from the spec: the ordered decision rules for the battery mode
(section 4.1.2 — first match wins), returning the raw (pre-anti-thrash) mode
and its description. The `pkg/controller` source is not under `src/`; the rules
follow the spec, consistent with `TestDecide` in `src/pkg/server/savings.go`. -/
def decideBatteryRaw (now : Int) (status : SystemStatus) (currentPrice : Price)
    (futurePrices : List Price) (history : List EnergyStats) (settings : Settings) :
    BatteryMode × String :=
  if status.BatteryCapacityKWH = 0 then
    (.standby, "Capacity 0")
  else if currentPrice.DollarsPerKWH ≤ 0 ∨
      (effectivePrice currentPrice settings < settings.AlwaysChargeUnderDollarsPerKWH ∧
        settings.GridChargeBatteries = true) then
    (.chargeAny, "Negative or always-charge price")
  else if arbitrageGuard now status currentPrice futurePrices settings = true then
    (.chargeAny, "Arbitrage: charge now for spike later")
  else if deficitProjected now status futurePrices history settings = true ∧
      currentAffordableGuard now currentPrice futurePrices settings = true then
    (if settings.GridChargeBatteries = true then
      (.chargeAny, "Projected Deficit; charging now at cheapest window")
     else (.standby, "Projected Deficit; grid charging disabled"))
  else if deficitProjected now status futurePrices history settings = true ∧
      (futuresInWindow now futurePrices).all
        (fun p => decide (p.DollarsPerKWH ≤ effectivePrice currentPrice settings)) = true then
    (.load, "Deficit predicted but Current Price is Peak")
  else if deficitProjected now status futurePrices history settings = true ∧
      (futuresInWindow now futurePrices).any
        (fun p => decide (p.DollarsPerKWH < effectivePrice currentPrice settings)) = true then
    (.standby, "Deficit predicted; waiting for cheaper hour")
  else if projectedNeedKWH now futurePrices history settings ≤ usableEnergyKWH status settings then
    (.load, "Sufficient Battery")
  else
    (.standby, "Default: Standby")

/-- Modelled from the spec: the anti-thrash finalization (section 4.1.4),
reconciling the desired battery mode with the observed battery activity.
`solarSurplus = max(0, SolarKW − HomeKW)`; the charging rate is `−BatteryKW`. -/
def finalizeBattery (status : SystemStatus) (desired : BatteryMode) : BatteryMode :=
  if status.BatteryKW < 0 ∧ desired = .chargeAny then .noChange
  else if 0 < status.BatteryKW ∧ desired = .load then .noChange
  else if 0 < status.BatteryKW ∧ desired = .standby then .noChange
  else if max 0 (status.SolarKW - status.HomeKW) < -status.BatteryKW ∧ 0 < status.GridKW ∧
      (desired = .load ∨ desired = .standby) then .load
  else if status.BatteryKW < 0 ∧ -status.BatteryKW ≤ max 0 (status.SolarKW - status.HomeKW) ∧
      desired = .load then .load
  else desired

/-- Modelled from the spec: the desired solar mode — `NoExport` when the price
is non-positive, solar export is disabled, or the device cannot export; else
`Any` (section 4.1.3). -/
def solarModeDesired (status : SystemStatus) (currentPrice : Price) (settings : Settings) :
    SolarMode :=
  if currentPrice.DollarsPerKWH ≤ 0 ∨ settings.GridExportSolar = false ∨
      status.CanExportSolar = false then .noExport
  else .any

/-- Modelled from the spec: the emitted solar mode. A desired `Any` always
matches the observed exporting-capable device (it is only desired when
`CanExportSolar`), so it is emitted as `NoChange` (section 4.1.3 last bullet,
consistent with the Solar Mode Match and Solar No Export cases of
`TestDecide`); a desired `NoExport` is always emitted (the spec invariant in
section 8 requires the emitted mode to be `NoExport`). -/
def solarModeFinal (status : SystemStatus) (currentPrice : Price) (settings : Settings) :
    SolarMode :=
  if solarModeDesired status currentPrice settings = .any then .noChange
  else solarModeDesired status currentPrice settings

/-- Decision returned by the controller; `handleUpdate` reads `Action` and
`Explanation`. -/
structure Decision where
  Action : Action
  Explanation : String
deriving DecidableEq, Repr

/-- Modelled from the spec: the emitted battery mode. The zero-capacity guard
returns without anti-thrash finalization (the Zero Capacity case of
`TestDecide` expects `Standby` even while discharging); otherwise the raw
decision passes through `finalizeBattery`. -/
def batteryDecision (now : Int) (status : SystemStatus) (currentPrice : Price)
    (futurePrices : List Price) (history : List EnergyStats) (settings : Settings) :
    BatteryMode :=
  if status.BatteryCapacityKWH = 0 then
    (decideBatteryRaw now status currentPrice futurePrices history settings).1
  else
    finalizeBattery status (decideBatteryRaw now status currentPrice futurePrices history settings).1

/-- Modelled from the spec: the controller entry point `Decide` (section 4.1).
The zero-capacity guard returns without anti-thrash finalization (the Zero
Capacity case of `TestDecide` expects `Standby` even while discharging);
otherwise the raw decision passes through `finalizeBattery`. -/
def Decide (now : Int) (status : SystemStatus) (currentPrice : Price)
    (futurePrices : List Price) (history : List EnergyStats) (settings : Settings) : Decision :=
  { Action :=
      { Timestamp := 0
        BatteryMode := batteryDecision now status currentPrice futurePrices history settings
        SolarMode := solarModeFinal status currentPrice settings
        Description := (decideBatteryRaw now status currentPrice futurePrices history settings).2
        CurrentPrice := currentPrice.DollarsPerKWH
        DryRun := false }
    Explanation := (decideBatteryRaw now status currentPrice futurePrices history settings).2 }

end controller

namespace server

/-- Go `time.Time.Truncate(time.Hour)` on our integer-seconds timestamps. -/
def truncHour (t : Int) : Int := (t.fdiv hourSecs) * hourSecs

/-- One external call issued by `handleUpdate` (`src/unnamed/part_001`),
recorded in order. -/
inductive ExtCall
  | getSettings
  | applySettings (s : Settings)
  | lastConfirmedPrice
  | upsertPrice (p : Price)
  | getLatestEnergyHistoryTime
  | essGetEnergyHistory (start stop : Int)
  | upsertEnergyHistory (h : EnergyStats)
  | getStatus
  | getCurrentPrice
  | getFuturePrices
  | storageGetEnergyHistory (start stop : Int)
  | setModes (b : BatteryMode) (s : SolarMode)
  | insertAction (a : Action)
deriving DecidableEq, Repr

/-- Whether an external call is an ESS `SetModes` command. -/
def isSetModes : ExtCall → Bool
  | .setModes _ _ => true
  | _ => false

/-- The body of the `handleUpdate` HTTP response. -/
inductive RespBody
  | errorText (msg : String)
  | paused
  | emergency
  | success (action : Action) (price : Price)
deriving DecidableEq, Repr

/-- Result of one `handleUpdate` tick: HTTP status, body, and the ordered
trace of external calls issued. -/
structure UpdateResult where
  status : Nat
  body : RespBody
  calls : List ExtCall
deriving DecidableEq, Repr

/-- Environment for one `handleUpdate` tick: the outcome of every external
call the handler may make. `none` stands for the call returning an error. The
auth gate of `handleUpdate` (cookie email or scheduler bearer token) is
abstracted into the boolean `authorized`; the claims below all concern the
authorized path. -/
structure UpdateEnv where
  authorized : Bool := true
  now : Int := 0
  getSettingsResult : Option Settings := none
  applySettingsOK : Bool := true
  lastConfirmedPriceResult : Option Price := none
  latestEnergyHistoryTime : Option Int := none
  essEnergyHistoryResult : Option (List EnergyStats) := none
  getStatusResult : Option SystemStatus := none
  currentPriceResult : Option Price := none
  futurePricesResult : Option (List Price) := none
  energyHistoryResult : Option (List EnergyStats) := none
  setModesError : Option String := none

/-- The start time for the energy-history sync: at most 72 hours back, but
starting from the last stored record truncated to the hour
(`handleUpdate`, step 3 in `src/unnamed/part_001`). A `none` or zero stored
time behaves like the Go zero time. -/
def syncStart (env : UpdateEnv) : Int :=
  match env.latestEnergyHistoryTime with
  | none => env.now - 72 * hourSecs
  | some t =>
    if t ≠ 0 ∧ env.now - 72 * hourSecs < t then truncHour t else env.now - 72 * hourSecs

/-- The calls issued by steps 1 to 3 of `handleUpdate` (settings, price sync,
history sync), common to every run that passes the fatal settings steps. -/
def syncCalls (env : UpdateEnv) (settings : Settings) : List ExtCall :=
  [ExtCall.getSettings, ExtCall.applySettings settings, ExtCall.lastConfirmedPrice] ++
  (match env.lastConfirmedPriceResult with
    | none => []
    | some p => [ExtCall.upsertPrice p]) ++
  [ExtCall.getLatestEnergyHistoryTime, ExtCall.essGetEnergyHistory (syncStart env) env.now] ++
  (match env.essEnergyHistoryResult with
    | none => []
    | some hs => hs.map ExtCall.upsertEnergyHistory)

/-- Whether `handleUpdate` issues an ESS `SetModes` call for a decided battery
mode: the `switch` in `handleUpdate` has cases for `ChargeAny`, `Load` and
`Standby` only. -/
def shouldSetModes : BatteryMode → Bool
  | .chargeAny => true
  | .load => true
  | .standby => true
  | _ => false

/-- The action produced by the controller with its timestamp defaulted to the
current time when unset (`handleUpdate` after `Decide`). -/
def decidedAction (now : Int) (status : SystemStatus) (currentPrice : Price)
    (futurePrices : List Price) (history : List EnergyStats) (settings : Settings) : Action :=
  let a := (controller.Decide now status currentPrice futurePrices history settings).Action
  if a.Timestamp = 0 then { a with Timestamp := now } else a

/-- The action after the execute step: a failed `SetModes` appends
" (FAILED: err)" to the description, and `settings.DryRun` sets the DryRun
flag before insertion. -/
def executedAction (setModesError : Option String) (dryRun : Bool) (a : Action) : Action :=
  let a1 :=
    match (if shouldSetModes a.BatteryMode then setModesError else none) with
    | some e => { a with Description := a.Description ++ " (FAILED: " ++ e ++ ")" }
    | none => a
  if dryRun then { a1 with DryRun := true } else a1

/-- Shallow embedding of `handleUpdate` (`src/unnamed/part_001`): the one-tick
pipeline. Auth gate, then settings (fatal), apply settings (fatal), price sync
(non-fatal), history sync (non-fatal), pause gate, status (fatal), emergency
gate, current price (fatal), future prices and history window (non-fatal,
empty on failure), decide, execute, log, respond. -/
def handleUpdate (env : UpdateEnv) : UpdateResult :=
  if env.authorized = false then
    { status := 401, body := .errorText "missing authentication", calls := [] }
  else
    match env.getSettingsResult with
    | none => { status := 500, body := .errorText "failed to get settings", calls := [.getSettings] }
    | some settings =>
      if env.applySettingsOK = false then
        { status := 500, body := .errorText "failed to apply settings"
          calls := [.getSettings, .applySettings settings] }
      else if settings.Pause = true then
        { status := 200, body := .paused, calls := syncCalls env settings }
      else
        match env.getStatusResult with
        | none =>
          { status := 500, body := .errorText "failed to get ess status"
            calls := syncCalls env settings ++ [.getStatus] }
        | some status =>
          if status.EmergencyMode = true then
            { status := 200, body := .emergency, calls := syncCalls env settings ++ [.getStatus] }
          else
            match env.currentPriceResult with
            | none =>
              { status := 500, body := .errorText "failed to get price"
                calls := syncCalls env settings ++ [.getStatus, .getCurrentPrice] }
            | some currentPrice =>
              let a := decidedAction env.now status currentPrice
                (env.futurePricesResult.getD []) (env.energyHistoryResult.getD []) settings
              let fin := executedAction env.setModesError settings.DryRun a
              { status := 200
                body := .success fin currentPrice
                calls := syncCalls env settings ++
                  [.getStatus, .getCurrentPrice, .getFuturePrices,
                   .storageGetEnergyHistory (env.now - 72 * hourSecs) env.now] ++
                  (if shouldSetModes a.BatteryMode then [.setModes a.BatteryMode .any] else []) ++
                  [.insertAction fin] }

/-- The actions logged (inserted into storage) during a tick. -/
def loggedActions (r : UpdateResult) : List Action :=
  r.calls.filterMap (fun c =>
    match c with
    | .insertAction a => some a
    | _ => none)

/-- The environment with the stored settings' DryRun flag replaced. -/
def withDryRun (env : UpdateEnv) (d : Bool) : UpdateEnv :=
  { env with getSettingsResult := env.getSettingsResult.map (fun s => { s with DryRun := d }) }

/-- Savings totals returned by `handleHistorySavings`
(`src/pkg/server/savings.go`). -/
structure SavingsStats where
  Timestamp : Int := 0
  Cost : ℚ := 0
  Credit : ℚ := 0
  BatterySavings : ℚ := 0
  SolarSavings : ℚ := 0
  AvoidedCost : ℚ := 0
  ChargingCost : ℚ := 0
  SolarGenerated : ℚ := 0
  GridImported : ℚ := 0
  GridExported : ℚ := 0
  HomeUsed : ℚ := 0
  BatteryUsed : ℚ := 0
deriving DecidableEq, Repr

/-- The sum of stored prices whose `TSStart` truncates to the hour `ts`
(the `hourlyPrices` accumulation map in `handleHistorySavings`). -/
def hourlyPriceSum (prices : List Price) (ts : Int) : ℚ :=
  ((prices.filter (fun p => truncHour p.TSStart = ts)).map (fun p => p.DollarsPerKWH)).sum

/-- The number of stored prices whose `TSStart` truncates to the hour `ts`
(the `hourlyPriceCounts` map in `handleHistorySavings`). -/
def hourlyPriceCount (prices : List Price) (ts : Int) : Nat :=
  (prices.filter (fun p => truncHour p.TSStart = ts)).length

/-- The averaged hourly price used by `handleHistorySavings`: the mean of the
stored prices in that hour, and 0 for an hour with no price data (the Go map
lookup default). -/
def hourlyPrice (prices : List Price) (ts : Int) : ℚ :=
  if hourlyPriceCount prices ts = 0 then 0
  else hourlyPriceSum prices ts / (hourlyPriceCount prices ts : ℚ)

/-- One iteration of the accumulation loop over energy stats in
`handleHistorySavings`. -/
def savingsStep (prices : List Price) (acc : SavingsStats) (stat : EnergyStats) : SavingsStats :=
  let price := hourlyPrice prices (truncHour stat.TSHourStart)
  { acc with
    HomeUsed := acc.HomeUsed + stat.HomeKWH
    SolarGenerated := acc.SolarGenerated + stat.SolarKWH
    GridImported := acc.GridImported + stat.GridImportKWH
    GridExported := acc.GridExported + stat.GridExportKWH
    BatteryUsed := acc.BatteryUsed + stat.BatteryUsedKWH
    Cost := acc.Cost + stat.GridImportKWH * price
    Credit := acc.Credit + stat.GridExportKWH * price
    AvoidedCost := acc.AvoidedCost + stat.BatteryToHomeKWH * price
    ChargingCost := acc.ChargingCost +
      max 0 (stat.BatteryChargedKWH - stat.SolarToBatteryKWH) * price
    SolarSavings := acc.SolarSavings + stat.SolarToHomeKWH * price }

/-- The totals computed by `handleHistorySavings` from the fetched prices and
energy stats: fold the accumulation loop, then set
`BatterySavings = AvoidedCost − ChargingCost`. -/
def computeSavings (start : Int) (prices : List Price) (energyStats : List EnergyStats) :
    SavingsStats :=
  let t := energyStats.foldl (savingsStep prices) { Timestamp := start }
  { t with BatterySavings := t.AvoidedCost - t.ChargingCost }

/-- Shallow embedding of `parseTimeRange` (`src/pkg/server/history.go`). The
RFC3339 parser is abstracted as `parse`; an absent query parameter is the
empty string (the Go `URL.Query().Get` default). -/
def parseTimeRange (parse : String → Option Int) (now : Int) (startStr endStr : String) :
    Except String (Int × Int) :=
  if startStr = "" ∨ endStr = "" then
    .ok (now - 24 * hourSecs, now)
  else
    match parse startStr with
    | none => .error "invalid start time"
    | some start =>
      match parse endStr with
      | none => .error "invalid end time"
      | some stop =>
        if stop < start then .error "start time must be before end time"
        else if 24 * hourSecs < stop - start then .error "time range cannot exceed 24 hours"
        else .ok (start, stop)

/-- A tiny concrete RFC3339-style parser used to instantiate witnesses:
a lookup of four fixed timestamp strings. -/
def sampleParse : String → Option Int
  | "2024-01-01T00:00:00Z" => some 1704067200
  | "2024-01-01T12:00:00Z" => some 1704110400
  | "2024-01-02T00:00:00Z" => some 1704153600
  | "2024-01-03T00:00:00Z" => some 1704240000
  | _ => none

end server

section ClaimTheorems

open controller server

attribute [local semireducible] Rat.add Rat.mul Rat.sub Rat.inv Rat.ofScientific

/-- The anti-thrash finalization only ever emits `NoChange`, `Load`, or the
desired mode itself; it never introduces `ChargeAny`. -/
theorem finalizeBattery_ne_chargeAny (status : SystemStatus) (d : BatteryMode)
    (h : d ≠ .chargeAny) : controller.finalizeBattery status d ≠ .chargeAny := by
  unfold controller.finalizeBattery
  split_ifs <;> simp_all

/-- With grid charging disabled and a positive current price, no raw decision
rule produces `ChargeAny`. -/
theorem decideBatteryRaw_ne_chargeAny (now : Int) (status : SystemStatus)
    (currentPrice : Price) (futurePrices : List Price) (history : List EnergyStats)
    (settings : Settings) (hg : settings.GridChargeBatteries = false)
    (hp : 0 < currentPrice.DollarsPerKWH) :
    (controller.decideBatteryRaw now status currentPrice futurePrices history settings).1 ≠
      .chargeAny := by
  have hga : controller.arbitrageGuard now status currentPrice futurePrices settings = false := by
    simp [controller.arbitrageGuard, hg]
  have hno : ¬(currentPrice.DollarsPerKWH ≤ 0 ∨
      (controller.effectivePrice currentPrice settings < settings.AlwaysChargeUnderDollarsPerKWH ∧
        settings.GridChargeBatteries = true)) := by
    rintro (h | ⟨-, hgc⟩)
    · exact absurd hp (not_lt.mpr h)
    · rw [hg] at hgc
      exact Bool.false_ne_true hgc
  unfold controller.decideBatteryRaw
  rw [hga]
  split_ifs <;> simp_all

/-- C1: for every input where `settings.GridChargeBatteries` is false and
`currentPrice.DollarsPerKWH > 0`, `Decide` never returns battery mode
`ChargeAny`. -/
theorem C1_no_chargeAny_without_grid_charge (now : Int) (status : SystemStatus)
    (currentPrice : Price) (futurePrices : List Price) (history : List EnergyStats)
    (settings : Settings) (hg : settings.GridChargeBatteries = false)
    (hp : 0 < currentPrice.DollarsPerKWH) :
    (controller.Decide now status currentPrice futurePrices history settings).Action.BatteryMode ≠
      .chargeAny := by
  have hraw := decideBatteryRaw_ne_chargeAny now status currentPrice futurePrices history
    settings hg hp
  show controller.batteryDecision now status currentPrice futurePrices history settings ≠ _
  unfold controller.batteryDecision
  split_ifs
  · exact hraw
  · exact finalizeBattery_ne_chargeAny status _ hraw

/-- C1 witness: a concrete run with grid charging disabled and a positive
price does not emit `ChargeAny`. -/
theorem C1_no_chargeAny_without_grid_charge_witness :
    (controller.Decide 0 { BatteryCapacityKWH := 10, BatterySOC := 50 }
      { DollarsPerKWH := 2 } [] [] { MinBatterySOC := 20 }).Action.BatteryMode ≠ .chargeAny :=
  C1_no_chargeAny_without_grid_charge 0 { BatteryCapacityKWH := 10, BatterySOC := 50 }
    { DollarsPerKWH := 2 } [] [] { MinBatterySOC := 20 } (by decide) (by decide)

/-- C2 counterexample: at the concrete input with `BatteryCapacityKWH = 0` and
`currentPrice.DollarsPerKWH = −1 ≤ 0`, the pre-finalization decision is
`Standby` (the zero-capacity guard fires first), not `ChargeAny` as the claim
states for every non-positive price. -/
theorem C2_counterexample :
    ¬((controller.decideBatteryRaw 0 { BatteryCapacityKWH := 0 } { DollarsPerKWH := -1 } [] []
        { GridChargeBatteries := true }).1 = .chargeAny) := by
  decide

/-- C2 (amended): provided `BatteryCapacityKWH ≠ 0`, any input with
`currentPrice ≤ 0`, or with effective current price below
`AlwaysChargeUnderDollarsPerKWH` and `GridChargeBatteries` true, makes the
raw (pre-anti-thrash) decision `ChargeAny`; in particular the concrete
scenario `currentPrice = 0.04`, `AlwaysChargeUnderDollarsPerKWH = 0.05`,
`GridChargeBatteries = true`, empty future prices yields `ChargeAny`, both
raw and emitted. -/
theorem C2_always_charge_amended :
    (∀ (now : Int) (status : SystemStatus) (currentPrice : Price) (futurePrices : List Price)
      (history : List EnergyStats) (settings : Settings),
      status.BatteryCapacityKWH ≠ 0 →
      (currentPrice.DollarsPerKWH ≤ 0 ∨
        (currentPrice.DollarsPerKWH + settings.AdditionalFeesDollarsPerKWH <
            settings.AlwaysChargeUnderDollarsPerKWH ∧ settings.GridChargeBatteries = true)) →
      (controller.decideBatteryRaw now status currentPrice futurePrices history settings).1 =
        .chargeAny) ∧
    (controller.decideBatteryRaw 0 { BatterySOC := 50, BatteryCapacityKWH := 10 }
        { DollarsPerKWH := 4/100 } [] []
        { AlwaysChargeUnderDollarsPerKWH := 5/100, GridChargeBatteries := true }).1 =
      .chargeAny ∧
    (controller.Decide 0 { BatterySOC := 50, BatteryCapacityKWH := 10 }
        { DollarsPerKWH := 4/100 } [] []
        { AlwaysChargeUnderDollarsPerKWH := 5/100,
          GridChargeBatteries := true }).Action.BatteryMode = .chargeAny := by
  refine ⟨?_, by decide, by decide⟩
  intro now status currentPrice futurePrices history settings hcap htrig
  unfold controller.decideBatteryRaw
  rw [if_neg hcap, if_pos (by simpa [controller.effectivePrice] using htrig)]

/-- C2 witness: the amended rule applied at a concrete input with a negative
price and nonzero capacity. -/
theorem C2_always_charge_amended_witness :
    (controller.decideBatteryRaw 0 { BatteryCapacityKWH := 10 } { DollarsPerKWH := -2 } [] []
      { }).1 = .chargeAny :=
  C2_always_charge_amended.1 0 { BatteryCapacityKWH := 10 } { DollarsPerKWH := -2 } [] [] { }
    (by decide) (Or.inl (by decide))

/-- C3: for every input with `BatteryCapacityKWH = 0` — including while the
battery is discharging — `Decide` returns `Standby` with a description
containing "Capacity 0". -/
theorem C3_zero_capacity_standby (now : Int) (status : SystemStatus) (currentPrice : Price)
    (futurePrices : List Price) (history : List EnergyStats) (settings : Settings)
    (hcap : status.BatteryCapacityKWH = 0) :
    (controller.Decide now status currentPrice futurePrices history settings).Action.BatteryMode =
        .standby ∧
      containsStr
        (controller.Decide now status currentPrice futurePrices history
          settings).Action.Description "Capacity 0" := by
  constructor
  · show controller.batteryDecision now status currentPrice futurePrices history settings = _
    simp [controller.batteryDecision, controller.decideBatteryRaw, hcap]
  · show containsStr
      (controller.decideBatteryRaw now status currentPrice futurePrices history settings).2 _
    refine ⟨"", "", ?_⟩
    simp [controller.decideBatteryRaw, hcap]

/-- C3 witness: zero capacity while discharging at 1 kW still yields `Standby`
with the "Capacity 0" description. -/
theorem C3_zero_capacity_standby_witness :
    (controller.Decide 0 { BatteryCapacityKWH := 0, BatteryKW := 1 } { DollarsPerKWH := 1 } [] []
        { }).Action.BatteryMode = .standby ∧
      containsStr
        (controller.Decide 0 { BatteryCapacityKWH := 0, BatteryKW := 1 } { DollarsPerKWH := 1 }
          [] [] { }).Action.Description "Capacity 0" :=
  C3_zero_capacity_standby 0 { BatteryCapacityKWH := 0, BatteryKW := 1 } { DollarsPerKWH := 1 }
    [] [] { } (by decide)

/-- C4: the anti-thrash finalization maps a raw `Load` to `NoChange` while the
battery is discharging, and a raw `ChargeAny` to `NoChange` while the battery
is charging. -/
theorem C4_anti_thrash_noChange (now : Int) (status : SystemStatus) (currentPrice : Price)
    (futurePrices : List Price) (history : List EnergyStats) (settings : Settings) :
    (0 < status.BatteryKW →
      (controller.decideBatteryRaw now status currentPrice futurePrices history settings).1 =
        .load →
      (controller.Decide now status currentPrice futurePrices history
        settings).Action.BatteryMode = .noChange) ∧
    (status.BatteryKW < 0 →
      (controller.decideBatteryRaw now status currentPrice futurePrices history settings).1 =
        .chargeAny →
      (controller.Decide now status currentPrice futurePrices history
        settings).Action.BatteryMode = .noChange) := by
  constructor
  · intro hbk hraw
    by_cases hc : status.BatteryCapacityKWH = 0
    · simp [controller.decideBatteryRaw, hc] at hraw
    · show controller.batteryDecision now status currentPrice futurePrices history settings = _
      unfold controller.batteryDecision
      rw [if_neg hc, hraw]
      simp [controller.finalizeBattery, hbk]
  · intro hbk hraw
    by_cases hc : status.BatteryCapacityKWH = 0
    · simp [controller.decideBatteryRaw, hc] at hraw
    · show controller.batteryDecision now status currentPrice futurePrices history settings = _
      unfold controller.batteryDecision
      rw [if_neg hc, hraw]
      simp [controller.finalizeBattery, hbk]

/-- C4 witness: a discharging battery with a raw `Load` decision, and a
charging battery with a raw `ChargeAny` decision, both emit `NoChange`. -/
theorem C4_anti_thrash_noChange_witness :
    (controller.Decide 0
        { BatteryCapacityKWH := 10, BatterySOC := 50, BatteryKW := 2, HomeKW := 1 }
        { DollarsPerKWH := 2 } [] [] { MinBatterySOC := 20 }).Action.BatteryMode = .noChange ∧
    (controller.Decide 0 { BatteryCapacityKWH := 10, BatterySOC := 50, BatteryKW := -5 }
        { DollarsPerKWH := -1 } [] [] { MinBatterySOC := 20 }).Action.BatteryMode = .noChange :=
  ⟨(C4_anti_thrash_noChange 0
      { BatteryCapacityKWH := 10, BatterySOC := 50, BatteryKW := 2, HomeKW := 1 }
      { DollarsPerKWH := 2 } [] [] { MinBatterySOC := 20 }).1 (by decide) (by decide),
   (C4_anti_thrash_noChange 0 { BatteryCapacityKWH := 10, BatterySOC := 50, BatteryKW := -5 }
      { DollarsPerKWH := -1 } [] [] { MinBatterySOC := 20 }).2 (by decide) (by decide)⟩

/-- C5: for every input where the current price is non-positive or solar
export is disabled in the settings, the emitted solar mode is `NoExport`. -/
theorem C5_solar_noExport (now : Int) (status : SystemStatus) (currentPrice : Price)
    (futurePrices : List Price) (history : List EnergyStats) (settings : Settings)
    (h : currentPrice.DollarsPerKWH ≤ 0 ∨ settings.GridExportSolar = false) :
    (controller.Decide now status currentPrice futurePrices history settings).Action.SolarMode =
      .noExport := by
  have hdes : controller.solarModeDesired status currentPrice settings = .noExport := by
    unfold controller.solarModeDesired
    rcases h with h | h
    · rw [if_pos (Or.inl h)]
    · rw [if_pos (Or.inr (Or.inl h))]
  show controller.solarModeFinal status currentPrice settings = _
  simp [controller.solarModeFinal, hdes]

/-- C5 witness: with solar export disabled the emitted solar mode is
`NoExport`. -/
theorem C5_solar_noExport_witness :
    (controller.Decide 0 { BatteryCapacityKWH := 10, CanExportSolar := true }
      { DollarsPerKWH := 1 } [] [] { }).Action.SolarMode = .noExport :=
  C5_solar_noExport 0 { BatteryCapacityKWH := 10, CanExportSolar := true } { DollarsPerKWH := 1 }
    [] [] { } (Or.inr (by decide))

/-- The sync steps issue no ESS `SetModes` command. -/
theorem filter_isSetModes_syncCalls (env : UpdateEnv) (settings : Settings) :
    (server.syncCalls env settings).filter server.isSetModes = [] := by
  unfold server.syncCalls
  cases env.lastConfirmedPriceResult <;> cases env.essEnergyHistoryResult <;>
    simp [server.isSetModes, List.filter_map, Function.comp]

/-- The sync steps do not read the ESS status. -/
theorem getStatus_not_mem_syncCalls (env : UpdateEnv) (settings : Settings) :
    server.ExtCall.getStatus ∉ server.syncCalls env settings := by
  unfold server.syncCalls
  cases env.lastConfirmedPriceResult <;> cases env.essEnergyHistoryResult <;> simp

/-- The sync steps log no action. -/
theorem insertAction_not_mem_syncCalls (env : UpdateEnv) (settings : Settings) (a : Action) :
    server.ExtCall.insertAction a ∉ server.syncCalls env settings := by
  unfold server.syncCalls
  cases env.lastConfirmedPriceResult <;> cases env.essEnergyHistoryResult <;> simp

/-- C6: when the stored settings have `Pause = true` (and the fatal settings
steps succeed on the authorized path), `handleUpdate` responds 200 with the
paused body and stops: no `GetStatus` and no `SetModes` is issued, while the
apply-settings, price-sync and history-sync calls were already made. -/
theorem C6_pause_gate (env : server.UpdateEnv) (settings : Settings)
    (ha : env.authorized = true) (hs : env.getSettingsResult = some settings)
    (hap : env.applySettingsOK = true) (hp : settings.Pause = true) :
    (server.handleUpdate env).status = 200 ∧
    (server.handleUpdate env).body = .paused ∧
    server.ExtCall.getStatus ∉ (server.handleUpdate env).calls ∧
    ((server.handleUpdate env).calls.filter server.isSetModes = []) ∧
    server.ExtCall.applySettings settings ∈ (server.handleUpdate env).calls ∧
    server.ExtCall.lastConfirmedPrice ∈ (server.handleUpdate env).calls ∧
    server.ExtCall.essGetEnergyHistory (server.syncStart env) env.now ∈
      (server.handleUpdate env).calls := by
  have hr : server.handleUpdate env =
      { status := 200, body := .paused, calls := server.syncCalls env settings } := by
    simp [server.handleUpdate, ha, hs, hap, hp]
  rw [hr]
  refine ⟨rfl, rfl, getStatus_not_mem_syncCalls env settings,
    filter_isSetModes_syncCalls env settings, ?_, ?_, ?_⟩ <;>
    · unfold server.syncCalls
      cases env.lastConfirmedPriceResult <;> cases env.essEnergyHistoryResult <;> simp

/-- C6 witness: a concrete paused tick. -/
theorem C6_pause_gate_witness :
    (server.handleUpdate { getSettingsResult := some { Pause := true } }).status = 200 ∧
    (server.handleUpdate { getSettingsResult := some { Pause := true } }).body = .paused ∧
    server.ExtCall.getStatus ∉
      (server.handleUpdate { getSettingsResult := some { Pause := true } }).calls ∧
    ((server.handleUpdate { getSettingsResult := some { Pause := true } }).calls.filter
      server.isSetModes = []) ∧
    server.ExtCall.applySettings { Pause := true } ∈
      (server.handleUpdate { getSettingsResult := some { Pause := true } }).calls ∧
    server.ExtCall.lastConfirmedPrice ∈
      (server.handleUpdate { getSettingsResult := some { Pause := true } }).calls ∧
    server.ExtCall.essGetEnergyHistory
        (server.syncStart { getSettingsResult := some { Pause := true } })
        ({ getSettingsResult := some { Pause := true } : server.UpdateEnv }).now ∈
      (server.handleUpdate { getSettingsResult := some { Pause := true } }).calls :=
  C6_pause_gate { getSettingsResult := some { Pause := true } } { Pause := true }
    (by decide) rfl (by decide) (by decide)

/-- C7: on a full (authorized, unpaused, non-emergency) tick, a decided
battery mode of `ChargeAny`, `Load` or `Standby` issues `SetModes` with that
battery mode and solar mode `Any`; a decided `NoChange` issues no `SetModes`;
a failed `SetModes` appends " (FAILED: err)" to the description of the action,
which is still logged, and the response is still 200 with that action. -/
theorem C7_execute_step (env : server.UpdateEnv) (settings : Settings) (status : SystemStatus)
    (currentPrice : Price) (ha : env.authorized = true)
    (hs : env.getSettingsResult = some settings) (hap : env.applySettingsOK = true)
    (hp : settings.Pause = false) (hst : env.getStatusResult = some status)
    (hem : status.EmergencyMode = false) (hcp : env.currentPriceResult = some currentPrice) :
    (server.handleUpdate env).status = 200 ∧
    ((server.decidedAction env.now status currentPrice (env.futurePricesResult.getD [])
          (env.energyHistoryResult.getD []) settings).BatteryMode = .chargeAny ∨
      (server.decidedAction env.now status currentPrice (env.futurePricesResult.getD [])
          (env.energyHistoryResult.getD []) settings).BatteryMode = .load ∨
      (server.decidedAction env.now status currentPrice (env.futurePricesResult.getD [])
          (env.energyHistoryResult.getD []) settings).BatteryMode = .standby →
      server.ExtCall.setModes
          (server.decidedAction env.now status currentPrice (env.futurePricesResult.getD [])
            (env.energyHistoryResult.getD []) settings).BatteryMode .any ∈
        (server.handleUpdate env).calls) ∧
    ((server.decidedAction env.now status currentPrice (env.futurePricesResult.getD [])
          (env.energyHistoryResult.getD []) settings).BatteryMode = .noChange →
      (server.handleUpdate env).calls.filter server.isSetModes = []) ∧
    server.ExtCall.insertAction
        (server.executedAction env.setModesError settings.DryRun
          (server.decidedAction env.now status currentPrice (env.futurePricesResult.getD [])
            (env.energyHistoryResult.getD []) settings)) ∈
      (server.handleUpdate env).calls ∧
    (server.handleUpdate env).body =
      .success
        (server.executedAction env.setModesError settings.DryRun
          (server.decidedAction env.now status currentPrice (env.futurePricesResult.getD [])
            (env.energyHistoryResult.getD []) settings))
        currentPrice ∧
    (∀ e, env.setModesError = some e →
      server.shouldSetModes
          (server.decidedAction env.now status currentPrice (env.futurePricesResult.getD [])
            (env.energyHistoryResult.getD []) settings).BatteryMode = true →
      (server.executedAction env.setModesError settings.DryRun
          (server.decidedAction env.now status currentPrice (env.futurePricesResult.getD [])
            (env.energyHistoryResult.getD []) settings)).Description =
        (server.decidedAction env.now status currentPrice (env.futurePricesResult.getD [])
            (env.energyHistoryResult.getD []) settings).Description ++
          " (FAILED: " ++ e ++ ")") := by
  have hr : server.handleUpdate env =
      { status := 200
        body := .success
          (server.executedAction env.setModesError settings.DryRun
            (server.decidedAction env.now status currentPrice (env.futurePricesResult.getD [])
              (env.energyHistoryResult.getD []) settings))
          currentPrice
        calls := server.syncCalls env settings ++
          [.getStatus, .getCurrentPrice, .getFuturePrices,
            .storageGetEnergyHistory (env.now - 72 * hourSecs) env.now] ++
          (if server.shouldSetModes
              (server.decidedAction env.now status currentPrice (env.futurePricesResult.getD [])
                (env.energyHistoryResult.getD []) settings).BatteryMode = true then
            [.setModes
              (server.decidedAction env.now status currentPrice (env.futurePricesResult.getD [])
                (env.energyHistoryResult.getD []) settings).BatteryMode .any]
           else []) ++
          [.insertAction
            (server.executedAction env.setModesError settings.DryRun
              (server.decidedAction env.now status currentPrice (env.futurePricesResult.getD [])
                (env.energyHistoryResult.getD []) settings))] } := by
    simp [server.handleUpdate, ha, hs, hap, hp, hst, hem, hcp]
  rw [hr]
  refine ⟨rfl, ?_, ?_, ?_, rfl, ?_⟩
  · intro hmode
    have hshould : server.shouldSetModes
        (server.decidedAction env.now status currentPrice (env.futurePricesResult.getD [])
          (env.energyHistoryResult.getD []) settings).BatteryMode = true := by
      rcases hmode with h | h | h <;> rw [h] <;> rfl
    rw [if_pos hshould]
    simp
  · intro hmode
    have hshould : server.shouldSetModes
        (server.decidedAction env.now status currentPrice (env.futurePricesResult.getD [])
          (env.energyHistoryResult.getD []) settings).BatteryMode = false := by
      rw [hmode]
      rfl
    rw [if_neg (by simp [hshould])]
    simp [List.filter_append, filter_isSetModes_syncCalls env settings, server.isSetModes]
  · simp
  · intro e he hshould
    unfold server.executedAction
    rw [hshould]
    simp only [if_true]
    rw [he]
    cases settings.DryRun <;> simp

/-- C7 witness: a concrete full tick whose decision is `Load` and whose
`SetModes` call fails with message "boom". -/
theorem C7_execute_step_witness :
    ((server.handleUpdate
        { getSettingsResult := some { }
          getStatusResult := some { BatteryCapacityKWH := 10, BatterySOC := 50 }
          currentPriceResult := some { DollarsPerKWH := 2 }
          setModesError := some "boom" }).status = 200 ∧
      server.ExtCall.setModes BatteryMode.load SolarMode.any ∈
        (server.handleUpdate
          { getSettingsResult := some { }
            getStatusResult := some { BatteryCapacityKWH := 10, BatterySOC := 50 }
            currentPriceResult := some { DollarsPerKWH := 2 }
            setModesError := some "boom" }).calls ∧
      (server.executedAction (some "boom") false
          (server.decidedAction 0 { BatteryCapacityKWH := 10, BatterySOC := 50 }
            { DollarsPerKWH := 2 } [] [] { })).Description =
        "Sufficient Battery (FAILED: boom)") := by
  have h := C7_execute_step
    { getSettingsResult := some { }
      getStatusResult := some { BatteryCapacityKWH := 10, BatterySOC := 50 }
      currentPriceResult := some { DollarsPerKWH := 2 }
      setModesError := some "boom" }
    { } { BatteryCapacityKWH := 10, BatterySOC := 50 } { DollarsPerKWH := 2 }
    (by decide) rfl (by decide) (by decide) rfl (by decide) rfl
  exact ⟨h.1, by decide, by decide⟩

/-- The controller never reads `settings.DryRun`: flipping it leaves the
decision unchanged. -/
theorem decide_dryRun_irrelevant (now : Int) (status : SystemStatus) (currentPrice : Price)
    (futurePrices : List Price) (history : List EnergyStats) (s : Settings) (d : Bool) :
    controller.Decide now status currentPrice futurePrices history { s with DryRun := d } =
      controller.Decide now status currentPrice futurePrices history s := rfl

/-- The decided action (before execution) carries `DryRun = false`. -/
theorem decidedAction_dryRun_false (now : Int) (status : SystemStatus) (currentPrice : Price)
    (futurePrices : List Price) (history : List EnergyStats) (s : Settings) :
    (server.decidedAction now status currentPrice futurePrices history s).DryRun = false := by
  by_cases h :
      (controller.Decide now status currentPrice futurePrices history s).Action.Timestamp = 0 <;>
    simp [server.decidedAction, h, controller.Decide]

/-- Overwriting an already-false `DryRun` flag with false is the identity. -/
theorem action_set_dryRun_self (a : Action) (h : a.DryRun = false) :
    { a with DryRun := false } = a := by
  cases a
  simp_all

/-- The executed action under one DryRun flag is the executed action under any
other flag with only the `DryRun` field replaced. -/
theorem executedAction_dryRun (err : Option String) (d1 d2 : Bool) (a : Action)
    (ha : a.DryRun = false) :
    server.executedAction err d2 a = { server.executedAction err d1 a with DryRun := d2 } := by
  unfold server.executedAction
  cases hm : (if server.shouldSetModes a.BatteryMode then err else none) with
  | none =>
    cases d1 <;> cases d2 <;> simp_all [action_set_dryRun_self a ha]
  | some e =>
    have ha' : ({ a with Description := a.Description ++ " (FAILED: " ++ e ++ ")" } :
        Action).DryRun = false := ha
    cases d1 <;> cases d2 <;>
      simp_all [action_set_dryRun_self _ ha']

/-- The sync steps contain no `insertAction` call. -/
theorem filterMap_insert_syncCalls (env : server.UpdateEnv) (settings : Settings) :
    ((server.syncCalls env settings).filterMap (fun c =>
      match c with
      | server.ExtCall.insertAction a => some a
      | _ => none)) = [] := by
  unfold server.syncCalls
  cases env.lastConfirmedPriceResult <;> cases env.essEnergyHistoryResult <;>
    simp [List.filterMap_map, Function.comp]

/-- C10: the choice and content of ESS `SetModes` commands issued by
`handleUpdate` do not depend on `settings.DryRun`; two ticks identical except
for the flag give the same HTTP status and log actions that differ only in
the `DryRun` field. -/
theorem C10_dryRun_only_marks_action (env : server.UpdateEnv) (d1 d2 : Bool) :
    (server.handleUpdate (server.withDryRun env d1)).calls.filter server.isSetModes =
      (server.handleUpdate (server.withDryRun env d2)).calls.filter server.isSetModes ∧
    (server.handleUpdate (server.withDryRun env d1)).status =
      (server.handleUpdate (server.withDryRun env d2)).status ∧
    server.loggedActions (server.handleUpdate (server.withDryRun env d2)) =
      (server.loggedActions (server.handleUpdate (server.withDryRun env d1))).map
        (fun a => { a with DryRun := d2 }) := by
  cases hgs : env.getSettingsResult with
  | none =>
    cases hauth : env.authorized <;>
      simp [server.handleUpdate, server.withDryRun, server.loggedActions, hgs, hauth]
  | some s =>
    obtain ⟨sdr, sp, sacu, safe, smad, smsoc, sgcb, sges, sihu⟩ := s
    cases hauth : env.authorized with
    | false =>
      simp [server.handleUpdate, server.withDryRun, server.loggedActions, hgs, hauth]
    | true =>
      cases hap : env.applySettingsOK with
      | false =>
        simp [server.handleUpdate, server.withDryRun, server.loggedActions, hgs, hauth, hap,
          server.isSetModes]
      | true =>
        cases sp with
        | true =>
          simp [server.handleUpdate, server.withDryRun, server.loggedActions, hgs, hauth, hap,
            filter_isSetModes_syncCalls, filterMap_insert_syncCalls]
        | false =>
          cases hst : env.getStatusResult with
          | none =>
            simp [server.handleUpdate, server.withDryRun, server.loggedActions, hgs, hauth,
              hap, hst, List.filter_append, List.filterMap_append,
              filter_isSetModes_syncCalls, filterMap_insert_syncCalls, server.isSetModes]
          | some status =>
            cases hem : status.EmergencyMode with
            | true =>
              simp [server.handleUpdate, server.withDryRun, server.loggedActions, hgs, hauth,
                hap, hst, hem, List.filter_append, List.filterMap_append,
                filter_isSetModes_syncCalls, filterMap_insert_syncCalls, server.isSetModes]
            | false =>
              cases hcp : env.currentPriceResult with
              | none =>
                simp [server.handleUpdate, server.withDryRun, server.loggedActions, hgs,
                  hauth, hap, hst, hem, hcp, List.filter_append, List.filterMap_append,
                  filter_isSetModes_syncCalls, filterMap_insert_syncCalls, server.isSetModes]
              | some currentPrice =>
                have hdec1 : server.decidedAction env.now status currentPrice
                    (env.futurePricesResult.getD []) (env.energyHistoryResult.getD [])
                    { DryRun := d1, Pause := false, AlwaysChargeUnderDollarsPerKWH := sacu,
                      AdditionalFeesDollarsPerKWH := safe,
                      MinArbitrageDifferenceDollarsPerKWH := smad, MinBatterySOC := smsoc,
                      GridChargeBatteries := sgcb, GridExportSolar := sges,
                      IgnoreHourUsageOverMultiple := sihu } =
                    server.decidedAction env.now status currentPrice
                      (env.futurePricesResult.getD []) (env.energyHistoryResult.getD [])
                      { DryRun := false, Pause := false, AlwaysChargeUnderDollarsPerKWH := sacu,
                        AdditionalFeesDollarsPerKWH := safe,
                        MinArbitrageDifferenceDollarsPerKWH := smad, MinBatterySOC := smsoc,
                        GridChargeBatteries := sgcb, GridExportSolar := sges,
                        IgnoreHourUsageOverMultiple := sihu } := rfl
                have hdec2 : server.decidedAction env.now status currentPrice
                    (env.futurePricesResult.getD []) (env.energyHistoryResult.getD [])
                    { DryRun := d2, Pause := false, AlwaysChargeUnderDollarsPerKWH := sacu,
                      AdditionalFeesDollarsPerKWH := safe,
                      MinArbitrageDifferenceDollarsPerKWH := smad, MinBatterySOC := smsoc,
                      GridChargeBatteries := sgcb, GridExportSolar := sges,
                      IgnoreHourUsageOverMultiple := sihu } =
                    server.decidedAction env.now status currentPrice
                      (env.futurePricesResult.getD []) (env.energyHistoryResult.getD [])
                      { DryRun := false, Pause := false, AlwaysChargeUnderDollarsPerKWH := sacu,
                        AdditionalFeesDollarsPerKWH := safe,
                        MinArbitrageDifferenceDollarsPerKWH := smad, MinBatterySOC := smsoc,
                        GridChargeBatteries := sgcb, GridExportSolar := sges,
                        IgnoreHourUsageOverMultiple := sihu } := rfl
                have hfin : ∀ d, server.executedAction env.setModesError d
                    (server.decidedAction env.now status currentPrice
                      (env.futurePricesResult.getD []) (env.energyHistoryResult.getD [])
                      { DryRun := false, Pause := false, AlwaysChargeUnderDollarsPerKWH := sacu,
                        AdditionalFeesDollarsPerKWH := safe,
                        MinArbitrageDifferenceDollarsPerKWH := smad, MinBatterySOC := smsoc,
                        GridChargeBatteries := sgcb, GridExportSolar := sges,
                        IgnoreHourUsageOverMultiple := sihu }) =
                    { server.executedAction env.setModesError d1
                      (server.decidedAction env.now status currentPrice
                        (env.futurePricesResult.getD []) (env.energyHistoryResult.getD [])
                        { DryRun := false, Pause := false,
                          AlwaysChargeUnderDollarsPerKWH := sacu,
                          AdditionalFeesDollarsPerKWH := safe,
                          MinArbitrageDifferenceDollarsPerKWH := smad, MinBatterySOC := smsoc,
                          GridChargeBatteries := sgcb, GridExportSolar := sges,
                          IgnoreHourUsageOverMultiple := sihu })
                      with DryRun := d } := by
                  intro d
                  exact executedAction_dryRun env.setModesError d1 d _
                    (decidedAction_dryRun_false env.now status currentPrice _ _ _)
                cases hsm : server.shouldSetModes
                    (server.decidedAction env.now status currentPrice
                      (env.futurePricesResult.getD []) (env.energyHistoryResult.getD [])
                      { DryRun := false, Pause := false, AlwaysChargeUnderDollarsPerKWH := sacu,
                        AdditionalFeesDollarsPerKWH := safe,
                        MinArbitrageDifferenceDollarsPerKWH := smad, MinBatterySOC := smsoc,
                        GridChargeBatteries := sgcb, GridExportSolar := sges,
                        IgnoreHourUsageOverMultiple := sihu }).BatteryMode <;>
                  refine ⟨?_, ?_, ?_⟩ <;>
                    simp [server.handleUpdate, server.withDryRun, server.loggedActions, hgs,
                      hauth, hap, hst, hem, hcp, hdec1, hdec2, hsm, List.filter_append,
                      List.filterMap_append, filter_isSetModes_syncCalls,
                      filterMap_insert_syncCalls, server.isSetModes, hfin d2,
                      action_set_dryRun_self]

/-- The accumulation loop of `handleHistorySavings` computes, field by field,
the initial value plus the sum of the per-hour products. -/
theorem savings_foldl_spec (prices : List Price) (stats : List EnergyStats)
    (acc : server.SavingsStats) :
    (stats.foldl (server.savingsStep prices) acc).Cost =
      acc.Cost + (stats.map (fun st =>
        st.GridImportKWH * server.hourlyPrice prices (server.truncHour st.TSHourStart))).sum ∧
    (stats.foldl (server.savingsStep prices) acc).Credit =
      acc.Credit + (stats.map (fun st =>
        st.GridExportKWH * server.hourlyPrice prices (server.truncHour st.TSHourStart))).sum ∧
    (stats.foldl (server.savingsStep prices) acc).AvoidedCost =
      acc.AvoidedCost + (stats.map (fun st =>
        st.BatteryToHomeKWH * server.hourlyPrice prices (server.truncHour st.TSHourStart))).sum ∧
    (stats.foldl (server.savingsStep prices) acc).ChargingCost =
      acc.ChargingCost + (stats.map (fun st =>
        max 0 (st.BatteryChargedKWH - st.SolarToBatteryKWH) *
          server.hourlyPrice prices (server.truncHour st.TSHourStart))).sum ∧
    (stats.foldl (server.savingsStep prices) acc).SolarSavings =
      acc.SolarSavings + (stats.map (fun st =>
        st.SolarToHomeKWH * server.hourlyPrice prices (server.truncHour st.TSHourStart))).sum := by
  induction stats generalizing acc with
  | nil => simp
  | cons h t ih =>
    obtain ⟨i1, i2, i3, i4, i5⟩ := ih (server.savingsStep prices acc h)
    simp only [List.foldl_cons, List.map_cons, List.sum_cons]
    refine ⟨?_, ?_, ?_, ?_, ?_⟩
    · rw [i1]
      show (server.savingsStep prices acc h).Cost + _ = _
      simp [server.savingsStep]
      ring
    · rw [i2]
      show (server.savingsStep prices acc h).Credit + _ = _
      simp [server.savingsStep]
      ring
    · rw [i3]
      show (server.savingsStep prices acc h).AvoidedCost + _ = _
      simp [server.savingsStep]
      ring
    · rw [i4]
      show (server.savingsStep prices acc h).ChargingCost + _ = _
      simp [server.savingsStep]
      ring
    · rw [i5]
      show (server.savingsStep prices acc h).SolarSavings + _ = _
      simp [server.savingsStep]
      ring

/-- C8: the savings totals satisfy
`Cost = Σ GridImportKWH × price(hour)`,
`Credit = Σ GridExportKWH × price(hour)`,
`AvoidedCost = Σ BatteryToHomeKWH × price(hour)`,
`ChargingCost = Σ max(0, BatteryChargedKWH − SolarToBatteryKWH) × price(hour)`,
`SolarSavings = Σ SolarToHomeKWH × price(hour)` and
`BatterySavings = AvoidedCost − ChargingCost`,
where `price(hour)` is the mean of stored prices whose `TSStart` truncates to
that hour (`hourlyPrice`). -/
theorem C8_savings_totals (start : Int) (prices : List Price)
    (energyStats : List EnergyStats) :
    (server.computeSavings start prices energyStats).Cost =
      (energyStats.map (fun st =>
        st.GridImportKWH * server.hourlyPrice prices (server.truncHour st.TSHourStart))).sum ∧
    (server.computeSavings start prices energyStats).Credit =
      (energyStats.map (fun st =>
        st.GridExportKWH * server.hourlyPrice prices (server.truncHour st.TSHourStart))).sum ∧
    (server.computeSavings start prices energyStats).AvoidedCost =
      (energyStats.map (fun st =>
        st.BatteryToHomeKWH * server.hourlyPrice prices (server.truncHour st.TSHourStart))).sum ∧
    (server.computeSavings start prices energyStats).ChargingCost =
      (energyStats.map (fun st =>
        max 0 (st.BatteryChargedKWH - st.SolarToBatteryKWH) *
          server.hourlyPrice prices (server.truncHour st.TSHourStart))).sum ∧
    (server.computeSavings start prices energyStats).SolarSavings =
      (energyStats.map (fun st =>
        st.SolarToHomeKWH * server.hourlyPrice prices (server.truncHour st.TSHourStart))).sum ∧
    (server.computeSavings start prices energyStats).BatterySavings =
      (server.computeSavings start prices energyStats).AvoidedCost -
        (server.computeSavings start prices energyStats).ChargingCost := by
  obtain ⟨i1, i2, i3, i4, i5⟩ :=
    savings_foldl_spec prices energyStats { Timestamp := start }
  unfold server.computeSavings
  refine ⟨?_, ?_, ?_, ?_, ?_, rfl⟩ <;> simp [i1, i2, i3, i4, i5]

/-- C9: `parseTimeRange` errors whenever the parsed end is before the parsed
start or the range exceeds 24 hours; an absent start or end parameter gives
the default window (now − 24h, now) without error; otherwise the two parsed
times are returned. -/
theorem C9_parseTimeRange_spec :
    (∀ (parse : String → Option Int) (now : Int) (s e : String) (ps pe : Int),
      s ≠ "" → e ≠ "" → parse s = some ps → parse e = some pe → pe < ps →
      server.parseTimeRange parse now s e = .error "start time must be before end time") ∧
    (∀ (parse : String → Option Int) (now : Int) (s e : String) (ps pe : Int),
      s ≠ "" → e ≠ "" → parse s = some ps → parse e = some pe →
      24 * hourSecs < pe - ps →
      server.parseTimeRange parse now s e = .error "time range cannot exceed 24 hours") ∧
    (∀ (parse : String → Option Int) (now : Int) (s e : String),
      s = "" ∨ e = "" →
      server.parseTimeRange parse now s e = .ok (now - 24 * hourSecs, now)) ∧
    (∀ (parse : String → Option Int) (now : Int) (s e : String) (ps pe : Int),
      s ≠ "" → e ≠ "" → parse s = some ps → parse e = some pe →
      ps ≤ pe → pe - ps ≤ 24 * hourSecs →
      server.parseTimeRange parse now s e = .ok (ps, pe)) := by
  refine ⟨?_, ?_, ?_, ?_⟩
  · intro parse now s e ps pe hs he hps hpe hlt
    unfold server.parseTimeRange
    rw [if_neg (by rintro (h | h) <;> simp_all)]
    simp only [hps, hpe]
    rw [if_pos hlt]
  · intro parse now s e ps pe hs he hps hpe hgt
    have hnlt : ¬(pe < ps) := by
      unfold hourSecs at hgt
      omega
    unfold server.parseTimeRange
    rw [if_neg (by rintro (h | h) <;> simp_all)]
    simp only [hps, hpe]
    rw [if_neg hnlt, if_pos hgt]
  · intro parse now s e h
    unfold server.parseTimeRange
    rw [if_pos h]
  · intro parse now s e ps pe hs he hps hpe hle hle24
    unfold server.parseTimeRange
    rw [if_neg (by rintro (h | h) <;> simp_all)]
    simp only [hps, hpe]
    rw [if_neg (not_lt.mpr hle), if_neg (not_lt.mpr hle24)]

/-- C9 witness: the four behaviours exercised with the sample parser: a
reversed range errors, a 48-hour range errors, an absent start gives the
default window, and a valid 12-hour range is returned as parsed. -/
theorem C9_parseTimeRange_spec_witness :
    server.parseTimeRange server.sampleParse 0 "2024-01-02T00:00:00Z" "2024-01-01T00:00:00Z" =
      .error "start time must be before end time" ∧
    server.parseTimeRange server.sampleParse 0 "2024-01-01T00:00:00Z" "2024-01-03T00:00:00Z" =
      .error "time range cannot exceed 24 hours" ∧
    server.parseTimeRange server.sampleParse 0 "" "2024-01-01T00:00:00Z" =
      .ok (0 - 24 * hourSecs, 0) ∧
    server.parseTimeRange server.sampleParse 0 "2024-01-01T00:00:00Z" "2024-01-01T12:00:00Z" =
      .ok (1704067200, 1704110400) :=
  ⟨C9_parseTimeRange_spec.1 server.sampleParse 0 _ _ 1704153600 1704067200 (by decide)
      (by decide) rfl rfl (by decide),
    C9_parseTimeRange_spec.2.1 server.sampleParse 0 _ _ 1704067200 1704240000 (by decide)
      (by decide) rfl rfl (by decide),
    C9_parseTimeRange_spec.2.2.1 server.sampleParse 0 _ _ (Or.inl rfl),
    C9_parseTimeRange_spec.2.2.2 server.sampleParse 0 _ _ 1704067200 1704110400 (by decide)
      (by decide) rfl rfl (by decide) (by decide)⟩

end ClaimTheorems

end AutoEnergy
